import Mathlib

/-!
Verification of the request/authentication/retry machinery of
`tap_dynamics/client.py` (the `DynamicsClient` class) against its
natural-language specification.

The Python code is embedded shallowly:

* module-level constants keep their names;
* `datetime` instants are modelled as integers (seconds); the two
  `datetime.utcnow()` calls inside one invocation of
  `_ensure_access_token` are modelled as the same instant;
* HTTP traffic is modelled by environments: each attempt of
  `_make_request` consumes one `AttemptEnv` describing what the network
  returns for the identity `POST` (`session.post`) and for the data call
  (`session.request`) of that attempt;
* JSON values returned by `response.json()` are modelled by `Json`
  (JSON `null` is Python `None`, hence `Json.jnull` is identified with
  Python `None` when a looked-up value is tested with `is not None`);
* exceptions are modelled by the closed variant type `AttemptError`;
  `SymonException` (defined in `tap_dynamics/symon_exception.py`) carries
  a message and an error-condition code and is not a subclass of any of
  the exception classes retried by the `backoff` decorators;
* the `backoff` decorators on `_make_request` are modelled by two nested
  retry loops (`expoLayerGo` for the `backoff.expo` layer over
  `Dynamics5xxException`/`Dynamics4xxException`/`requests.ConnectionError`,
  `outer429Go` for the `retry_after_wait_gen` layer over
  `Dynamics429Exception`); a retry delay is modelled as the value produced
  by the wait generator of the corresponding layer;
* side effects (the identity `POST`, the config-file rewrite performed by
  `_write_config`, the data-endpoint request, and the sleeps between
  retries) are recorded in an event trace.
-/

namespace TapDynamics

/-! ## Module constants (client.py lines 18-21) -/

def API_VERSION : String := "9.2"

def MAX_PAGESIZE : Nat := 5000

def MAX_RETRIES : Nat := 5

def MAX_SELECT_PARAM_SIZE : Nat := 1800

/-! ## JSON values as returned by `response.json()` -/

inductive Json where
  | jnull
  | jstr (s : String)
  | jnum (n : Int)
  | jobj (fields : List (String × Json))

/-- Python subscript `j[k]`: `none` models a raised `KeyError`/`TypeError`
(key missing, or the value is not a dict). A present key bound to JSON
`null` yields `some .jnull` (no exception is raised). -/
def jsonIndex : Json → String → Option Json
  | .jobj fields, k => (fields.find? (fun p => p.1 == k)).map (fun p => p.2)
  | _, _ => none

/-- The Python value of a JSON field, as seen by an `is not None` test:
JSON `null` is Python `None`. -/
def pyVal : Json → Option Json
  | .jnull => none
  | .jstr s => some (.jstr s)
  | .jnum n => some (.jnum n)
  | .jobj fields => some (.jobj fields)

/-- Rendering of a JSON value inside a Python f-string.  The claims under
verification depend only on which values are interpolated, not on the exact
rendering of non-string values, which is abbreviated here. -/
def pyStr : Json → String
  | .jnull => "None"
  | .jstr s => s
  | .jnum n => toString n
  | .jobj _ => "object"

/-! ## Python `in` on strings (substring containment) -/

def pyInAux [BEq α] (needle : List α) : List α → Bool
  | [] => needle.isEmpty
  | a :: rest => needle.isPrefixOf (a :: rest) || pyInAux needle rest

/-- Python `needle in haystack` for strings. -/
def pyStrContains (haystack needle : String) : Bool :=
  pyInAux needle.data haystack.data

/-! ## Data model -/

/-- The mutable token/credential state of a `DynamicsClient`, together with
the `refresh_token` field of the JSON config file at `config_path`
(the only part of the file the client ever rewrites). -/
structure ClientState where
  organization_uri : String
  refresh_token : Option String
  access_token : Option String
  expires_at : Option Int
  config_refresh_token : Option String
deriving DecidableEq

/-- The identity endpoint's reply to the token-refresh `POST`
(client.py lines 129-151): HTTP status plus the fields of the JSON body
read by `_ensure_access_token`.  `expires_in` is the value of
`int(data.get('expires_in'))`. -/
structure TokenResponse where
  status_code : Nat
  access_token : Option String
  refresh_token : Option String
  expires_in : Int
deriving DecidableEq

/-- What `session.post` to the identity endpoint does on a given attempt:
either it returns a response, or it raises `requests.ConnectionError`. -/
inductive TokenTransport where
  | ok (resp : TokenResponse)
  | connectionError (message : String)
deriving DecidableEq

/-- A data-endpoint HTTP response: status, raw text, the parsed value of
the `Retry-After` header (Python later applies `float`; modelled as an
exact rational, `none` when the header is absent), and the result of
`response.json()` (`none` models a raised `JSONDecodeError`). -/
structure HttpResponse where
  status_code : Nat
  text : String
  retryAfterHeader : Option ℚ
  body : Option Json

/-- What `session.request` to the data endpoint does on a given attempt. -/
inductive TransportResult where
  | ok (resp : HttpResponse)
  | connectionError (message : String)

/-- The value returned by `_make_request` on success: the parsed JSON body,
or the raw text when JSON parsing failed. -/
inductive Results where
  | json (j : Json)
  | text (t : String)

/-- The exceptions that can propagate out of one attempt of
`_make_request`, as a closed variant type.

`symon` models `SymonException(message, code)` from
`tap_dynamics/symon_exception.py`; that class is not a subclass of
`DynamicsException` or of `requests.ConnectionError`, so it is never
caught by either `backoff` layer.  `pyError` models a Python runtime
error (`UnboundLocalError`, `TypeError`) raised by the code itself. -/
inductive AttemptError where
  | e5xx (resp : HttpResponse)
  | e429 (resp : HttpResponse)
  | e4xx (resp : HttpResponse)
  | connectionError (message : String)
  | symon (message : String) (code : String)
  | pyError (kind : String)

/-- Observable side effects of the client, in program order. -/
inductive Event where
  | tokenPost
  | configWrite (refresh_token : Option String)
  | dataRequest
  | sleep (seconds : Int)
deriving DecidableEq

/-! ## Messages raised by the client -/

def authInvalidMessage : String :=
  "Failed to connect to MS Dynamics. Please ensure the OAuth token is up to date."

def invalidUrlMessage (organization_uri : String) : String :=
  "Sorry, we couldn't connect to Dynamics URL \"" ++ organization_uri ++
    "\". Please check the Dynamics URL and try again."

/-- client.py line 200: the two DNS/name-resolution failure substrings. -/
def isDnsFailureMessage (message : String) : Bool :=
  pyStrContains message "nodename nor servname provided, or not known" ||
  pyStrContains message "Name or service not known"

/-! ## `_ensure_access_token` (client.py lines 127-151) -/

/-- client.py line 128: `self.access_token is None or self.expires_at <=
datetime.utcnow()`.  The `some`/`none` case cannot arise in the client's
lifecycle (`access_token` and `expires_at` are always assigned together);
Python would raise there, and it is mapped to `true` only to keep the
function total. -/
def needsRefresh (s : ClientState) (now : Int) : Bool :=
  match s.access_token with
  | none => true
  | some _ =>
    match s.expires_at with
    | some e => decide (e ≤ now)
    | none => true

/-- Model of `_ensure_access_token`, returning the new client state, the event
trace, and the exception if one was raised.  On refresh it performs the
identity `POST`; on non-200 it raises `SymonException(..,
'dynamics.AuthInvalid')` before any assignment; on 200 it stores the
access token, runs `_write_config` iff the returned refresh token differs
from the stored one, and sets `expires_at := now + (expires_in - 10)`. -/
def ensureAccessToken (now : Int) (t : TokenTransport) (s : ClientState) :
    ClientState × List Event × Except AttemptError Unit :=
  if needsRefresh s now then
    match t with
    | .connectionError msg => (s, [Event.tokenPost], .error (.connectionError msg))
    | .ok resp =>
      if resp.status_code ≠ 200 then
        (s, [Event.tokenPost], .error (.symon authInvalidMessage "dynamics.AuthInvalid"))
      else
        if s.refresh_token ≠ resp.refresh_token then
          ({ s with access_token := resp.access_token,
                    refresh_token := resp.refresh_token,
                    config_refresh_token := resp.refresh_token,
                    expires_at := some (now + (resp.expires_in - 10)) },
           [Event.tokenPost, Event.configWrite resp.refresh_token], .ok ())
        else
          ({ s with access_token := resp.access_token,
                    expires_at := some (now + (resp.expires_in - 10)) },
           [Event.tokenPost], .ok ())
  else (s, [], .ok ())

/-! ## One attempt of `_make_request` (client.py lines 172-216) -/

/-- client.py lines 195-216: the `try`/`except` around `session.request`
and the status classification.

On `requests.ConnectionError`: if the message contains a DNS-failure
substring, `SymonException(.., 'dynamics.InvalidUrl')` is raised; otherwise
the `except` block falls through without re-raising, the local variable
`response` is left unassigned, and line 204 (`response.status_code`)
raises `UnboundLocalError`.

On a received response: `>= 500` raises `Dynamics5xxException`, `== 429`
raises `Dynamics429Exception`, `>= 400` raises `Dynamics4xxException`,
otherwise the body is parsed (`response.json()`, falling back to
`response.text` on `JSONDecodeError`). -/
def classifyTransport (organization_uri : String) (t : TransportResult) :
    Except AttemptError Results :=
  match t with
  | .connectionError msg =>
    if isDnsFailureMessage msg then
      .error (.symon (invalidUrlMessage organization_uri) "dynamics.InvalidUrl")
    else
      .error (.pyError "UnboundLocalError")
  | .ok resp =>
    if resp.status_code ≥ 500 then .error (.e5xx resp)
    else if resp.status_code == 429 then .error (.e429 resp)
    else if resp.status_code ≥ 400 then .error (.e4xx resp)
    else
      match resp.body with
      | some j => .ok (.json j)
      | none => .ok (.text resp.text)

/-- The network behaviour seen by one attempt of `_make_request`. -/
structure AttemptEnv where
  now : Int
  tokenTransport : TokenTransport
  transport : TransportResult

/-- One attempt of `_make_request` (the body of the decorated function):
ensure a valid access token, then issue the data request and classify the
outcome.  Returns the new state, the event trace of the attempt, and the
result or raised exception. -/
def makeRequestOnce (env : AttemptEnv) (s : ClientState) :
    ClientState × List Event × Except AttemptError Results :=
  match ensureAccessToken env.now env.tokenTransport s with
  | (s1, evs, .error e) => (s1, evs, .error e)
  | (s1, evs, .ok _) =>
    (s1, evs ++ [Event.dataRequest], classifyTransport s1.organization_uri env.transport)

/-! ## The two `backoff` layers (client.py lines 162-171) -/

/-- The `backoff.expo` wait generator with `base` and `factor`: the n-th generated wait is
`factor * base ^ n`.  The decorator at line 166 passes `factor=2` (base
defaults to 2). -/
def expo (base factor : Int) (n : Nat) : Int :=
  factor * base ^ n

/-- The exception classes retried by the inner decorator (line 166):
`(Dynamics5xxException, Dynamics4xxException, requests.ConnectionError)`. -/
def isInnerRetryable : AttemptError → Bool
  | .e5xx _ => true
  | .e4xx _ => true
  | .connectionError _ => true
  | _ => false

/-- The result of running `_make_request` with its retry decorators:
final client state, the full event trace (attempts interleaved with
sleeps), the final outcome, and the total number of attempts made. -/
structure RunResult where
  state : ClientState
  events : List Event
  outcome : Except AttemptError Results
  attempts : Nat

/-- The inner `backoff.on_exception(backoff.expo, (5xx, 4xx,
ConnectionError), max_tries=MAX_RETRIES, factor=2)` layer.

`g` is the global attempt index (indexing the environment), `j` the local
retry index of this layer (indexing the wait generator, which restarts on
every invocation of the decorated function), `rem` the number of tries
still available (`max_tries` minus tries already made).  `rem = 0` is
never reached from `rem = MAX_RETRIES = 5`. -/
def expoLayerGo (env : Nat → AttemptEnv) :
    ClientState → Nat → Nat → Nat → List Event → RunResult
  | s, g, _, 0, acc => ⟨s, acc, .error (.pyError "unreachable"), g⟩
  | s, g, _, 1, acc =>
    match makeRequestOnce (env g) s with
    | (s1, evs, out) => ⟨s1, acc ++ evs, out, g + 1⟩
  | s, g, j, rem+2, acc =>
    match makeRequestOnce (env g) s with
    | (s1, evs, .ok v) => ⟨s1, acc ++ evs, .ok v, g + 1⟩
    | (s1, evs, .error e) =>
      if isInnerRetryable e then
        expoLayerGo env s1 (g+1) (j+1) (rem+1)
          (acc ++ evs ++ [Event.sleep (expo 2 2 j)])
      else
        ⟨s1, acc ++ evs, .error e, g + 1⟩

/-- The outer `backoff.on_exception(retry_after_wait_gen,
Dynamics429Exception, max_tries=MAX_RETRIES)` layer.  On a propagating
`Dynamics429Exception` it sleeps `math.floor(float(resp.headers.get(
'Retry-After')))` seconds (a missing header makes `float(None)` raise
`TypeError`) and re-invokes the inner-decorated function. -/
def outer429Go (env : Nat → AttemptEnv) :
    ClientState → Nat → Nat → List Event → RunResult
  | s, g, 0, acc => ⟨s, acc, .error (.pyError "unreachable"), g⟩
  | s, g, 1, acc =>
    match expoLayerGo env s g 0 MAX_RETRIES [] with
    | r => ⟨r.state, acc ++ r.events, r.outcome, r.attempts⟩
  | s, g, rem+2, acc =>
    match expoLayerGo env s g 0 MAX_RETRIES [] with
    | r =>
      match r.outcome with
      | .error (.e429 resp) =>
        match resp.retryAfterHeader with
        | some q =>
          outer429Go env r.state r.attempts (rem+1)
            (acc ++ r.events ++ [Event.sleep (Rat.floor q)])
        | none => ⟨r.state, acc ++ r.events, .error (.pyError "TypeError"), r.attempts⟩
      | out => ⟨r.state, acc ++ r.events, out, r.attempts⟩

/-- Model of `_make_request` with both retry decorators applied (the outer layer is
the 429 one: decorators apply bottom-up, so the `expo` layer is inside). -/
def makeRequest (env : Nat → AttemptEnv) (s : ClientState) : RunResult :=
  outer429Go env s 0 MAX_RETRIES []

/-! ## `get` (client.py lines 218-234) -/

/-- `except DynamicsException as e` together with `e.response`: the three
classified HTTP errors are the `DynamicsException` subclasses raised by
`_make_request`, each carrying its response. -/
def dynamicsResponse : AttemptError → Option HttpResponse
  | .e5xx resp => some resp
  | .e429 resp => some resp
  | .e4xx resp => some resp
  | _ => none

/-- The `try` block of `get` (lines 222-228): starting from
`message, error_code = None, None`, parse the body, then look up
`error_json["error"]["message"]` and `error_json["error"]["code"]` in
order; the first raising lookup aborts the block keeping the assignments
made so far. -/
def extractMsgCode (body : Option Json) : Option Json × Option Json :=
  match body with
  | none => (none, none)
  | some ej =>
    match jsonIndex ej "error" with
    | none => (none, none)
    | some errv =>
      match jsonIndex errv "message" with
      | none => (none, none)
      | some m =>
        match jsonIndex errv "code" with
        | none => (pyVal m, none)
        | some c => (pyVal m, pyVal c)

def apiErrorMessageWithCode (c m : Json) : String :=
  "Import failed with the following MS Dynamics error: (error code: " ++
    pyStr c ++ ") " ++ pyStr m

def apiErrorMessage (m : Json) : String :=
  "Import failed with the following MS Dynamics error: " ++ pyStr m

/-- The `except DynamicsException` handler of `get` (lines 221-234),
applied to the result of the decorated `_make_request` call: on a
propagating `DynamicsException`, extract message/code from the response
body and re-raise as `SymonException(.., 'dynamics.DynamicsApiError')`
when a message (and possibly a code) is present, otherwise re-raise the
original exception unchanged.  All other exceptions pass through. -/
def translateError (r : RunResult) : RunResult :=
  match r.outcome with
  | .ok _ => r
  | .error e =>
    match dynamicsResponse e with
    | none => r
    | some resp =>
      match extractMsgCode resp.body with
      | (some m, some c) =>
        { r with outcome := .error (.symon (apiErrorMessageWithCode c m)
            "dynamics.DynamicsApiError") }
      | (some m, none) =>
        { r with outcome := .error (.symon (apiErrorMessage m)
            "dynamics.DynamicsApiError") }
      | (none, _) => r

/-- Model of `get` (lines 218-234): `_make_request` with retries, wrapped in the
error-translation handler. -/
def get (env : Nat → AttemptEnv) (s : ClientState) : RunResult :=
  translateError (makeRequest env s)

/-! ## Static query-parameter builders (client.py lines 276-296) -/

/-- Model of `build_params` (lines 276-285).  Query-parameter dicts are modelled as
association lists in insertion order.  `filter_value` follows Python
truthiness: both `None` and the empty string fail `if filter_value:`. -/
def build_params (orderby_key replication_key : String)
    (filter_value : Option String) : List (String × String) :=
  let orderby_param := orderby_key ++ " asc"
  match filter_value with
  | some v =>
    if v ≠ "" then
      [("$orderby", orderby_param), ("$filter", replication_key ++ " ge " ++ v)]
    else
      [("$orderby", orderby_param)]
  | none => [("$orderby", orderby_param)]

/-- Model of `build_select_params` (lines 288-296).  `select_columns` is
`','.join(desired_columns)`, and Python `len` on a string counts code
points, which is `String.length` here. -/
def build_select_params (desired_columns : Option (List String)) :
    List (String × String) :=
  match desired_columns with
  | none => []
  | some cols =>
    if cols.length = 0 then []
    else if (String.intercalate "," cols).length > MAX_SELECT_PARAM_SIZE then []
    else [("$select", String.intercalate "," cols)]

/-! ## Trace helpers -/

/-- The sleep durations occurring in an event trace, in order. -/
def sleepsOf (evs : List Event) : List Int :=
  evs.filterMap fun e =>
    match e with
    | .sleep n => some n
    | _ => none

/-! ## Concrete fixtures used to exercise the model -/

/-- A client that holds a refresh token but no access token yet. -/
def cState : ClientState :=
  { organization_uri := "https://example.crm.dynamics.com"
    refresh_token := some "tok0"
    access_token := none
    expires_at := none
    config_refresh_token := some "tok0" }

/-- A successful identity-endpoint reply returning the same refresh token. -/
def tokOkResp : TokenResponse :=
  { status_code := 200, access_token := some "atok",
    refresh_token := some "tok0", expires_in := 3600 }

def cTokenOk : TokenTransport := .ok tokOkResp

/-- A successful identity-endpoint reply returning a rotated refresh token. -/
def tokRotResp : TokenResponse :=
  { status_code := 200, access_token := some "atok",
    refresh_token := some "tok1", expires_in := 3600 }

/-- A rejected identity-endpoint reply (stale credentials). -/
def tokBadResp : TokenResponse :=
  { status_code := 401, access_token := none, refresh_token := none,
    expires_in := 0 }

def resp500 : HttpResponse :=
  { status_code := 500, text := "internal server error",
    retryAfterHeader := none, body := none }

def resp429 : HttpResponse :=
  { status_code := 429, text := "rate limited",
    retryAfterHeader := some 3, body := none }

def respOkPage : HttpResponse :=
  { status_code := 200, text := "ok", retryAfterHeader := none,
    body := some (.jobj [("value", .jstr "rows")]) }

def resp400err : HttpResponse :=
  { status_code := 400, text := "bad request", retryAfterHeader := none,
    body := some (.jobj [("error",
      .jobj [("message", .jstr "Invalid query"),
             ("code", .jstr "0x80060888")])]) }

/-- Every attempt: token refresh succeeds, data endpoint returns 500. -/
def env500 : Nat → AttemptEnv :=
  fun _ => { now := 0, tokenTransport := cTokenOk, transport := .ok resp500 }

/-- First attempt: 429 with `Retry-After: 3`; afterwards: success. -/
def env429 : Nat → AttemptEnv :=
  fun k =>
    if k = 0 then
      { now := 0, tokenTransport := cTokenOk, transport := .ok resp429 }
    else
      { now := 0, tokenTransport := cTokenOk, transport := .ok respOkPage }

/-- Every attempt: token refresh succeeds, data endpoint returns 400 with a
structured error body. -/
def env400 : Nat → AttemptEnv :=
  fun _ => { now := 0, tokenTransport := cTokenOk, transport := .ok resp400err }

/-- Every attempt: the identity endpoint rejects the refresh. -/
def envAuthBad : Nat → AttemptEnv :=
  fun _ => { now := 0, tokenTransport := .ok tokBadResp, transport := .ok resp500 }

/-- One attempt whose token refresh rotates the refresh token. -/
def envRot : AttemptEnv :=
  { now := 0, tokenTransport := .ok tokRotResp, transport := .ok resp500 }

/-- A single column name of 901 two-byte characters: its code-point count
(Python `len`) is 901 but its UTF-8 encoding is 1802 bytes. -/
def wideName : String := String.mk (List.replicate 901 'é')

end TapDynamics

namespace TapDynamics

/-! ## Helper lemmas about traces and the token machinery -/

theorem sleepsOf_append (a b : List Event) :
    sleepsOf (a ++ b) = sleepsOf a ++ sleepsOf b := by
  simp [sleepsOf]

theorem sleepsOf_single_sleep (x : Int) : sleepsOf [Event.sleep x] = [x] := rfl

theorem ensure_no_sleep (now : Int) (t : TokenTransport) (s : ClientState) :
    sleepsOf (ensureAccessToken now t s).2.1 = [] := by
  unfold ensureAccessToken
  repeat' split
  all_goals rfl

theorem makeRequestOnce_no_sleep (env : AttemptEnv) (s : ClientState) :
    sleepsOf (makeRequestOnce env s).2.1 = [] := by
  have h := ensure_no_sleep env.now env.tokenTransport s
  unfold makeRequestOnce
  rcases hE : ensureAccessToken env.now env.tokenTransport s with ⟨s1, evs, out⟩
  rw [hE] at h
  have h' : sleepsOf evs = [] := h
  cases out with
  | error e => exact h'
  | ok u =>
    show sleepsOf (evs ++ [Event.dataRequest]) = []
    rw [sleepsOf_append, h']
    rfl

theorem needsRefresh_iff (s : ClientState) (now : Int)
    (hinv : s.access_token.isSome = true → s.expires_at.isSome = true) :
    needsRefresh s now = true ↔
      (s.access_token = none ∨ ∃ e, s.expires_at = some e ∧ e ≤ now) := by
  unfold needsRefresh
  cases ha : s.access_token with
  | none => simp
  | some a =>
    cases he : s.expires_at with
    | none => simp [ha, he] at hinv
    | some e => simp [decide_eq_true_eq]

theorem ensureAccessToken_noRefresh (now : Int) (t : TokenTransport) (s : ClientState)
    (h : needsRefresh s now = false) :
    ensureAccessToken now t s = (s, [], Except.ok ()) := by
  unfold ensureAccessToken
  rw [if_neg (by simp [h])]

theorem ensureAccessToken_conn (now : Int) (m : String) (s : ClientState)
    (hneed : needsRefresh s now = true) :
    ensureAccessToken now (.connectionError m) s =
      (s, [Event.tokenPost], Except.error (.connectionError m)) := by
  unfold ensureAccessToken
  rw [if_pos hneed]

theorem ensureAccessToken_non200 (now : Int) (tr : TokenResponse) (s : ClientState)
    (hneed : needsRefresh s now = true) (hst : tr.status_code ≠ 200) :
    ensureAccessToken now (.ok tr) s =
      (s, [Event.tokenPost],
        Except.error (.symon authInvalidMessage "dynamics.AuthInvalid")) := by
  unfold ensureAccessToken
  rw [if_pos hneed]
  show (if tr.status_code ≠ 200 then _ else _) = _
  rw [if_pos hst]

theorem ensureAccessToken_200 (now : Int) (tr : TokenResponse) (s : ClientState)
    (hneed : needsRefresh s now = true) (h200 : tr.status_code = 200) :
    ensureAccessToken now (.ok tr) s =
      if s.refresh_token ≠ tr.refresh_token then
        ({ s with access_token := tr.access_token,
                  refresh_token := tr.refresh_token,
                  config_refresh_token := tr.refresh_token,
                  expires_at := some (now + (tr.expires_in - 10)) },
         [Event.tokenPost, Event.configWrite tr.refresh_token], Except.ok ())
      else
        ({ s with access_token := tr.access_token,
                  expires_at := some (now + (tr.expires_in - 10)) },
         [Event.tokenPost], Except.ok ()) := by
  unfold ensureAccessToken
  rw [if_pos hneed]
  show (if tr.status_code ≠ 200 then _ else _) = _
  rw [if_neg (by simp [h200])]

theorem makeRequestOnce_outcome_200 (envA : AttemptEnv) (s : ClientState)
    (tr : TokenResponse)
    (htok : envA.tokenTransport = TokenTransport.ok tr) (h200 : tr.status_code = 200) :
    (makeRequestOnce envA s).2.2 = classifyTransport s.organization_uri envA.transport := by
  by_cases hneed : needsRefresh s envA.now = true
  · have hE := ensureAccessToken_200 envA.now tr s hneed h200
    by_cases h3 : s.refresh_token ≠ tr.refresh_token
    · rw [if_pos h3] at hE
      unfold makeRequestOnce
      rw [htok, hE]
    · rw [if_neg h3] at hE
      unfold makeRequestOnce
      rw [htok, hE]
  · have hE := ensureAccessToken_noRefresh envA.now envA.tokenTransport s
        (by simpa using hneed)
    unfold makeRequestOnce
    rw [hE]

/-! ## Helper lemmas about the two retry layers -/

theorem expoLayerGo_retry_step (env : Nat → AttemptEnv) (s : ClientState) (g j n : Nat)
    (acc : List Event) (e : AttemptError)
    (hout : (makeRequestOnce (env g) s).2.2 = Except.error e)
    (hret : isInnerRetryable e = true) :
    expoLayerGo env s g j (n+2) acc =
      expoLayerGo env (makeRequestOnce (env g) s).1 (g+1) (j+1) (n+1)
        (acc ++ (makeRequestOnce (env g) s).2.1 ++ [Event.sleep (expo 2 2 j)]) := by
  have heq : expoLayerGo env s g j (n+2) acc =
      (match makeRequestOnce (env g) s with
       | (s1, evs, .ok v) => ⟨s1, acc ++ evs, .ok v, g + 1⟩
       | (s1, evs, .error e') =>
         if isInnerRetryable e' then
           expoLayerGo env s1 (g+1) (j+1) (n+1)
             (acc ++ evs ++ [Event.sleep (expo 2 2 j)])
         else
           ⟨s1, acc ++ evs, .error e', g + 1⟩) := rfl
  rw [heq]
  rcases hE : makeRequestOnce (env g) s with ⟨s1, evs, out⟩
  rw [hE] at hout
  have hout' : out = Except.error e := hout
  subst hout'
  show (if isInnerRetryable e then
      expoLayerGo env s1 (g+1) (j+1) (n+1) (acc ++ evs ++ [Event.sleep (expo 2 2 j)])
    else ⟨s1, acc ++ evs, .error e, g + 1⟩) = _
  rw [if_pos hret]

theorem expoLayerGo_last (env : Nat → AttemptEnv) (s : ClientState) (g j : Nat)
    (acc : List Event) :
    expoLayerGo env s g j 1 acc =
      ⟨(makeRequestOnce (env g) s).1, acc ++ (makeRequestOnce (env g) s).2.1,
        (makeRequestOnce (env g) s).2.2, g + 1⟩ := by
  rfl

theorem expoLayerGo_stop (env : Nat → AttemptEnv) (s : ClientState) (g j n : Nat)
    (acc : List Event) (e : AttemptError)
    (hout : (makeRequestOnce (env g) s).2.2 = Except.error e)
    (hret : isInnerRetryable e = false) :
    expoLayerGo env s g j (n+2) acc =
      ⟨(makeRequestOnce (env g) s).1, acc ++ (makeRequestOnce (env g) s).2.1,
        Except.error e, g + 1⟩ := by
  have heq : expoLayerGo env s g j (n+2) acc =
      (match makeRequestOnce (env g) s with
       | (s1, evs, .ok v) => ⟨s1, acc ++ evs, .ok v, g + 1⟩
       | (s1, evs, .error e') =>
         if isInnerRetryable e' then
           expoLayerGo env s1 (g+1) (j+1) (n+1)
             (acc ++ evs ++ [Event.sleep (expo 2 2 j)])
         else
           ⟨s1, acc ++ evs, .error e', g + 1⟩) := rfl
  rw [heq]
  rcases hE : makeRequestOnce (env g) s with ⟨s1, evs, out⟩
  rw [hE] at hout
  have hout' : out = Except.error e := hout
  subst hout'
  show (if isInnerRetryable e then
      expoLayerGo env s1 (g+1) (j+1) (n+1) (acc ++ evs ++ [Event.sleep (expo 2 2 j)])
    else ⟨s1, acc ++ evs, .error e, g + 1⟩) = _
  rw [if_neg (by rw [hret]; exact Bool.false_ne_true)]

theorem expoLayerGo_ok (env : Nat → AttemptEnv) (s : ClientState) (g j n : Nat)
    (acc : List Event) (v : Results)
    (hout : (makeRequestOnce (env g) s).2.2 = Except.ok v) :
    expoLayerGo env s g j (n+2) acc =
      ⟨(makeRequestOnce (env g) s).1, acc ++ (makeRequestOnce (env g) s).2.1,
        Except.ok v, g + 1⟩ := by
  have heq : expoLayerGo env s g j (n+2) acc =
      (match makeRequestOnce (env g) s with
       | (s1, evs, .ok v') => ⟨s1, acc ++ evs, .ok v', g + 1⟩
       | (s1, evs, .error e') =>
         if isInnerRetryable e' then
           expoLayerGo env s1 (g+1) (j+1) (n+1)
             (acc ++ evs ++ [Event.sleep (expo 2 2 j)])
         else
           ⟨s1, acc ++ evs, .error e', g + 1⟩) := rfl
  rw [heq]
  rcases hE : makeRequestOnce (env g) s with ⟨s1, evs, out⟩
  rw [hE] at hout
  have hout' : out = Except.ok v := hout
  subst hout'
  rfl

theorem outer429Go_pass (env : Nat → AttemptEnv) (s : ClientState) (g n : Nat)
    (acc : List Event) (r : RunResult)
    (hrun : expoLayerGo env s g 0 MAX_RETRIES [] = r)
    (hno : ∀ resp, r.outcome ≠ Except.error (AttemptError.e429 resp)) :
    outer429Go env s g (n+2) acc = ⟨r.state, acc ++ r.events, r.outcome, r.attempts⟩ := by
  have heq : outer429Go env s g (n+2) acc =
      (match (expoLayerGo env s g 0 MAX_RETRIES []).outcome with
       | .error (.e429 resp) =>
         match resp.retryAfterHeader with
         | some q =>
           outer429Go env (expoLayerGo env s g 0 MAX_RETRIES []).state
             (expoLayerGo env s g 0 MAX_RETRIES []).attempts (n+1)
             (acc ++ (expoLayerGo env s g 0 MAX_RETRIES []).events ++
               [Event.sleep (Rat.floor q)])
         | none =>
           ⟨(expoLayerGo env s g 0 MAX_RETRIES []).state,
             acc ++ (expoLayerGo env s g 0 MAX_RETRIES []).events,
             .error (.pyError "TypeError"),
             (expoLayerGo env s g 0 MAX_RETRIES []).attempts⟩
       | out =>
         ⟨(expoLayerGo env s g 0 MAX_RETRIES []).state,
           acc ++ (expoLayerGo env s g 0 MAX_RETRIES []).events, out,
           (expoLayerGo env s g 0 MAX_RETRIES []).attempts⟩) := rfl
  rw [heq, hrun]
  rcases hO : r.outcome with e | v
  · cases e with
    | e5xx resp => rfl
    | e429 resp => exact absurd hO (hno resp)
    | e4xx resp => rfl
    | connectionError m => rfl
    | symon m c => rfl
    | pyError k => rfl
  · rfl

theorem outer429Go_429_step (env : Nat → AttemptEnv) (s : ClientState) (g n : Nat)
    (acc : List Event) (r : RunResult) (resp : HttpResponse) (q : ℚ)
    (hrun : expoLayerGo env s g 0 MAX_RETRIES [] = r)
    (h429 : r.outcome = Except.error (AttemptError.e429 resp))
    (hq : resp.retryAfterHeader = some q) :
    outer429Go env s g (n+2) acc =
      outer429Go env r.state r.attempts (n+1)
        (acc ++ r.events ++ [Event.sleep (Rat.floor q)]) := by
  have heq : outer429Go env s g (n+2) acc =
      (match (expoLayerGo env s g 0 MAX_RETRIES []).outcome with
       | .error (.e429 resp') =>
         match resp'.retryAfterHeader with
         | some q' =>
           outer429Go env (expoLayerGo env s g 0 MAX_RETRIES []).state
             (expoLayerGo env s g 0 MAX_RETRIES []).attempts (n+1)
             (acc ++ (expoLayerGo env s g 0 MAX_RETRIES []).events ++
               [Event.sleep (Rat.floor q')])
         | none =>
           ⟨(expoLayerGo env s g 0 MAX_RETRIES []).state,
             acc ++ (expoLayerGo env s g 0 MAX_RETRIES []).events,
             .error (.pyError "TypeError"),
             (expoLayerGo env s g 0 MAX_RETRIES []).attempts⟩
       | out =>
         ⟨(expoLayerGo env s g 0 MAX_RETRIES []).state,
           acc ++ (expoLayerGo env s g 0 MAX_RETRIES []).events, out,
           (expoLayerGo env s g 0 MAX_RETRIES []).attempts⟩) := rfl
  rw [heq, hrun, h429]
  show (match resp.retryAfterHeader with
        | some q' =>
          outer429Go env r.state r.attempts (n+1)
            (acc ++ r.events ++ [Event.sleep (Rat.floor q')])
        | none =>
          ⟨r.state, acc ++ r.events, Except.error (AttemptError.pyError "TypeError"),
            r.attempts⟩) = _
  rw [hq]

/-! ## Claim theorems -/

/-- C1: the spec requires every non-DNS transport-level connection failure
of the data request to be classified as a retryable `ConnectionFailure`;
the code instead satisfies only the DNS half.  At a connection failure
whose message matches a DNS substring the call raises
`SymonException(.., 'dynamics.InvalidUrl')` as specified, but at any other
connection failure the `except` block falls through without re-raising and
the subsequent `response.status_code` raises `UnboundLocalError`, which no
retry layer catches. -/
theorem connection_failure_swallowed_vs_dns :
    (makeRequestOnce
        { now := 0, tokenTransport := cTokenOk,
          transport := .connectionError "Connection reset by peer" } cState).2.2
      = Except.error (AttemptError.pyError "UnboundLocalError") ∧
    (makeRequestOnce
        { now := 0, tokenTransport := cTokenOk,
          transport := .connectionError
            "Failed to establish a new connection: Name or service not known" }
        cState).2.2
      = Except.error (AttemptError.symon
          (invalidUrlMessage "https://example.crm.dynamics.com")
          "dynamics.InvalidUrl") :=
  ⟨rfl, rfl⟩

/-- C2: for every sequence of classified retryable errors (5xx, non-429
4xx, connection failure) the run makes exactly `MAX_RETRIES = 5` attempts,
the delays between them follow the `backoff.expo` schedule with factor 2
(2, 4, 8, 16 seconds), and the final outcome is the last classified
error. -/
theorem retry_schedule_and_attempt_ceiling (env : Nat → AttemptEnv) (s : ClientState)
    (errs : Nat → AttemptError)
    (hout : ∀ k s', (makeRequestOnce (env k) s').2.2 = Except.error (errs k))
    (hret : ∀ k, isInnerRetryable (errs k) = true) :
    (makeRequest env s).attempts = 5 ∧
    sleepsOf (makeRequest env s).events = [2, 4, 8, 16] ∧
    (makeRequest env s).outcome = Except.error (errs 4) := by
  have hrun : ∃ st ev, expoLayerGo env s 0 0 MAX_RETRIES [] =
      ⟨st, ev, Except.error (errs 4), 5⟩ ∧ sleepsOf ev = [2, 4, 8, 16] := by
    rw [show MAX_RETRIES = 3+2 from rfl,
        expoLayerGo_retry_step env s 0 0 3 [] (errs 0) (hout 0 s) (hret 0)]
    rw [show (3:Nat)+1 = 2+2 from rfl,
        expoLayerGo_retry_step env _ _ _ 2 _ (errs (0+1)) (hout (0+1) _) (hret (0+1))]
    rw [show (2:Nat)+1 = 1+2 from rfl,
        expoLayerGo_retry_step env _ _ _ 1 _ (errs (0+1+1)) (hout (0+1+1) _) (hret (0+1+1))]
    rw [show (1:Nat)+1 = 0+2 from rfl,
        expoLayerGo_retry_step env _ _ _ 0 _ (errs (0+1+1+1)) (hout (0+1+1+1) _)
          (hret (0+1+1+1))]
    rw [show (0:Nat)+1 = 1 from rfl, expoLayerGo_last env]
    rw [hout (0+1+1+1+1)]
    refine ⟨_, _, rfl, ?_⟩
    simp only [sleepsOf_append, makeRequestOnce_no_sleep, sleepsOf_single_sleep]
    simp [sleepsOf, expo]
  obtain ⟨st, ev, hR, hsleep⟩ := hrun
  have hno : ∀ resp,
      (⟨st, ev, Except.error (errs 4), 5⟩ : RunResult).outcome ≠
        Except.error (AttemptError.e429 resp) := by
    intro resp h
    have h429 : errs 4 = AttemptError.e429 resp := by
      have h' : (Except.error (errs 4) : Except AttemptError Results) =
          Except.error (AttemptError.e429 resp) := h
      injection h'
    have hr4 := hret 4
    rw [h429] at hr4
    simp [isInnerRetryable] at hr4
  have houter := outer429Go_pass env s 0 3 [] _ hR hno
  have hM : makeRequest env s = ⟨st, [] ++ ev, Except.error (errs 4), 5⟩ := houter
  rw [hM]
  refine ⟨rfl, ?_, rfl⟩
  simpa using hsleep

/-- C2 witness: a run of five straight HTTP 500 responses makes exactly
five attempts, sleeps 2, 4, 8, 16 seconds between them, and surfaces the
last `Dynamics5xxException`. -/
theorem retry_schedule_and_attempt_ceiling_witness :
    (makeRequest env500 cState).attempts = 5 ∧
    sleepsOf (makeRequest env500 cState).events = [2, 4, 8, 16] ∧
    (makeRequest env500 cState).outcome = Except.error (AttemptError.e5xx resp500) :=
  retry_schedule_and_attempt_ceiling env500 cState (fun _ => AttemptError.e5xx resp500)
    (fun k s' => (makeRequestOnce_outcome_200 (env500 k) s' tokOkResp rfl rfl).trans rfl)
    (fun _ => rfl)

/-- C3: when an attempt raises `Dynamics429Exception` carrying a
`Retry-After` header and the following attempt succeeds, the run makes
exactly two attempts, the single delay between them is
`math.floor(Retry-After)` seconds, and no exponential backoff occurs. -/
theorem rate_limited_retry_after_wait (env : Nat → AttemptEnv) (s : ClientState)
    (resp : HttpResponse) (q : ℚ) (v : Results)
    (h0 : ∀ s', (makeRequestOnce (env 0) s').2.2 =
      Except.error (AttemptError.e429 resp))
    (hq : resp.retryAfterHeader = some q)
    (h1 : ∀ s', (makeRequestOnce (env 1) s').2.2 = Except.ok v) :
    (makeRequest env s).attempts = 2 ∧
    sleepsOf (makeRequest env s).events = [Rat.floor q] ∧
    (makeRequest env s).outcome = Except.ok v := by
  have hstop : expoLayerGo env s 0 0 MAX_RETRIES [] =
      ⟨(makeRequestOnce (env 0) s).1, [] ++ (makeRequestOnce (env 0) s).2.1,
        Except.error (AttemptError.e429 resp), 0 + 1⟩ :=
    expoLayerGo_stop env s 0 0 3 [] (AttemptError.e429 resp) (h0 s) rfl
  have hstep := outer429Go_429_step env s 0 3 [] _ resp q hstop rfl hq
  have hok : expoLayerGo env (makeRequestOnce (env 0) s).1 (0+1) 0 MAX_RETRIES [] =
      ⟨(makeRequestOnce (env (0+1)) (makeRequestOnce (env 0) s).1).1,
        [] ++ (makeRequestOnce (env (0+1)) (makeRequestOnce (env 0) s).1).2.1,
        Except.ok v, (0+1) + 1⟩ :=
    expoLayerGo_ok env (makeRequestOnce (env 0) s).1 (0+1) 0 3 [] v (h1 _)
  have hpass := outer429Go_pass env (makeRequestOnce (env 0) s).1 (0+1) 2
      ([] ++ ([] ++ (makeRequestOnce (env 0) s).2.1) ++ [Event.sleep (Rat.floor q)]) _
      hok (by intro r' h; simp at h)
  have hM1 : makeRequest env s =
      outer429Go env (makeRequestOnce (env 0) s).1 (0+1) (3+1)
        ([] ++ ([] ++ (makeRequestOnce (env 0) s).2.1) ++
          [Event.sleep (Rat.floor q)]) := hstep
  have hM2 : outer429Go env (makeRequestOnce (env 0) s).1 (0+1) (3+1)
      ([] ++ ([] ++ (makeRequestOnce (env 0) s).2.1) ++
        [Event.sleep (Rat.floor q)]) =
      ⟨(makeRequestOnce (env (0+1)) (makeRequestOnce (env 0) s).1).1,
        ([] ++ ([] ++ (makeRequestOnce (env 0) s).2.1) ++
          [Event.sleep (Rat.floor q)]) ++
          ([] ++ (makeRequestOnce (env (0+1)) (makeRequestOnce (env 0) s).1).2.1),
        Except.ok v, 2⟩ := hpass
  rw [hM1.trans hM2]
  refine ⟨rfl, ?_, rfl⟩
  simp only [sleepsOf_append, makeRequestOnce_no_sleep, sleepsOf_single_sleep]
  simp [sleepsOf]

/-- C3 witness: a 429 response with `Retry-After: 3` followed by a
success yields exactly one 3-second wait and two attempts with no
exponential backoff. -/
theorem rate_limited_retry_after_wait_witness :
    (makeRequest env429 cState).attempts = 2 ∧
    sleepsOf (makeRequest env429 cState).events = [3] ∧
    (makeRequest env429 cState).outcome =
      Except.ok (Results.json (.jobj [("value", .jstr "rows")])) := by
  have h := rate_limited_retry_after_wait env429 cState resp429 3
      (Results.json (.jobj [("value", .jstr "rows")]))
      (fun s' => (makeRequestOnce_outcome_200 (env429 0) s' tokOkResp rfl rfl).trans rfl)
      rfl
      (fun s' => (makeRequestOnce_outcome_200 (env429 1) s' tokOkResp rfl rfl).trans rfl)
  refine ⟨h.1, ?_, h.2.2⟩
  rw [h.2.1]
  decide

/-- C4: `_ensure_access_token` performs the refresh POST iff no access
token is held or the stored expiry instant (which is the token's expiry
minus the 10-second clock-drift margin) has been reached; a token whose
margin has not elapsed is never refreshed, and a successful refresh stores
an expiry equal to the issuance instant plus `expires_in - 10` seconds. -/
theorem ensure_access_token_refresh_iff (now : Int) (t : TokenTransport) (s : ClientState)
    (hinv : s.access_token.isSome = true → s.expires_at.isSome = true) :
    (Event.tokenPost ∈ (ensureAccessToken now t s).2.1 ↔
      (s.access_token = none ∨ ∃ e, s.expires_at = some e ∧ e ≤ now)) ∧
    (∀ tr, t = TokenTransport.ok tr → tr.status_code = 200 →
      needsRefresh s now = true →
      (ensureAccessToken now t s).1.expires_at = some (now + (tr.expires_in - 10))) := by
  constructor
  · rw [← needsRefresh_iff s now hinv]
    by_cases hneed : needsRefresh s now = true
    · simp only [hneed, iff_true]
      cases t with
      | connectionError m =>
        rw [ensureAccessToken_conn now m s hneed]
        simp
      | ok tr =>
        by_cases hst : tr.status_code = 200
        · have hE := ensureAccessToken_200 now tr s hneed hst
          by_cases h3 : s.refresh_token ≠ tr.refresh_token
          · rw [if_pos h3] at hE
            rw [hE]
            simp
          · rw [if_neg h3] at hE
            rw [hE]
            simp
        · rw [ensureAccessToken_non200 now tr s hneed hst]
          simp
    · have hfalse : needsRefresh s now = false := by simpa using hneed
      rw [ensureAccessToken_noRefresh now t s hfalse, hfalse]
      simp
  · rintro tr rfl h200 hneed
    have hE := ensureAccessToken_200 now tr s hneed h200
    by_cases h3 : s.refresh_token ≠ tr.refresh_token
    · rw [if_pos h3] at hE
      rw [hE]
    · rw [if_neg h3] at hE
      rw [hE]

/-- C4 witness: a client with no access token refreshes at time 100 and
stores expiry `100 + (3600 - 10)`. -/
theorem ensure_access_token_refresh_iff_witness :
    (Event.tokenPost ∈ (ensureAccessToken 100 cTokenOk cState).2.1 ↔
      (cState.access_token = none ∨ ∃ e, cState.expires_at = some e ∧ e ≤ 100)) ∧
    (∀ tr, cTokenOk = TokenTransport.ok tr → tr.status_code = 200 →
      needsRefresh cState 100 = true →
      (ensureAccessToken 100 cTokenOk cState).1.expires_at =
        some (100 + (tr.expires_in - 10))) :=
  ensure_access_token_refresh_iff 100 cTokenOk cState
    (fun h => absurd h (by decide))

/-- C5: when a `DynamicsException` (5xx, 429, or non-429 4xx) propagates
out of `_make_request` after retries, `get` re-raises a
`SymonException(.., 'dynamics.DynamicsApiError')` naming both code and
message when both are extractable from the response body, naming just the
message when only it is extractable, and otherwise re-raises the original
exception unchanged. -/
theorem get_error_translation (env : Nat → AttemptEnv) (s : ClientState)
    (e : AttemptError) (resp : HttpResponse)
    (hfail : (makeRequest env s).outcome = Except.error e)
    (hdyn : dynamicsResponse e = some resp) :
    (get env s).outcome =
      (match extractMsgCode resp.body with
       | (some m, some c) =>
         Except.error (AttemptError.symon (apiErrorMessageWithCode c m)
           "dynamics.DynamicsApiError")
       | (some m, none) =>
         Except.error (AttemptError.symon (apiErrorMessage m)
           "dynamics.DynamicsApiError")
       | (none, _) => Except.error e) := by
  rcases hmc : extractMsgCode resp.body with ⟨mo, co⟩
  cases mo <;> cases co <;>
    simp only [get, translateError, hfail, hdyn, hmc]

/-- C5 witness: after five 400 responses whose body carries both an error
code and a message, `get` raises the user-facing domain error naming
both. -/
theorem get_error_translation_witness :
    (get env400 cState).outcome =
      Except.error (AttemptError.symon
        "Import failed with the following MS Dynamics error: (error code: 0x80060888) Invalid query"
        "dynamics.DynamicsApiError") :=
  get_error_translation env400 cState (AttemptError.e4xx resp400err) resp400err rfl rfl

/-- C6: a non-success status from the identity endpoint makes the whole
call fail at once with `SymonException(.., 'dynamics.AuthInvalid')`:
exactly one attempt is made, no sleep occurs, and neither retry layer
catches the exception (it is not among the retryable classes of either
`backoff` decorator). -/
theorem auth_invalid_not_retried (env : Nat → AttemptEnv) (s : ClientState)
    (tr : TokenResponse)
    (hneed : needsRefresh s (env 0).now = true)
    (htok : (env 0).tokenTransport = TokenTransport.ok tr)
    (hst : tr.status_code ≠ 200) :
    makeRequest env s =
      ⟨s, [Event.tokenPost],
        Except.error (AttemptError.symon authInvalidMessage "dynamics.AuthInvalid"),
        1⟩ := by
  have honce : makeRequestOnce (env 0) s =
      (s, [Event.tokenPost],
        Except.error (AttemptError.symon authInvalidMessage "dynamics.AuthInvalid")) := by
    unfold makeRequestOnce
    rw [htok, ensureAccessToken_non200 (env 0).now tr s hneed hst]
  have hstop := expoLayerGo_stop env s 0 0 3 []
      (AttemptError.symon authInvalidMessage "dynamics.AuthInvalid")
      (by rw [honce]) rfl
  rw [honce] at hstop
  have hstop' : expoLayerGo env s 0 0 MAX_RETRIES [] =
      ⟨s, [Event.tokenPost],
        Except.error (AttemptError.symon authInvalidMessage "dynamics.AuthInvalid"),
        1⟩ := hstop
  exact outer429Go_pass env s 0 3 [] _ hstop' (by intro r' h; simp at h)

/-- C6 witness: a 401 from the identity endpoint fails the call after one
attempt with the `AuthInvalid` condition and no retry. -/
theorem auth_invalid_not_retried_witness :
    makeRequest envAuthBad cState =
      ⟨cState, [Event.tokenPost],
        Except.error (AttemptError.symon authInvalidMessage "dynamics.AuthInvalid"),
        1⟩ :=
  auth_invalid_not_retried envAuthBad cState tokBadResp (by decide) rfl (by decide)

/-- C7: when a successful refresh returns a refresh token different from
the stored one, `_write_config` runs — updating the in-memory refresh
token and the config file — before the data-endpoint request of that call;
when the returned token equals the stored one, no config write occurs. -/
theorem config_rewritten_before_data_request (envA : AttemptEnv) (s : ClientState)
    (tr : TokenResponse)
    (htok : envA.tokenTransport = TokenTransport.ok tr) (h200 : tr.status_code = 200)
    (hneed : needsRefresh s envA.now = true) :
    (tr.refresh_token ≠ s.refresh_token →
      (makeRequestOnce envA s).2.1 =
        [Event.tokenPost, Event.configWrite tr.refresh_token, Event.dataRequest] ∧
      (makeRequestOnce envA s).1.refresh_token = tr.refresh_token ∧
      (makeRequestOnce envA s).1.config_refresh_token = tr.refresh_token) ∧
    (tr.refresh_token = s.refresh_token →
      (makeRequestOnce envA s).2.1 = [Event.tokenPost, Event.dataRequest] ∧
      (makeRequestOnce envA s).1.config_refresh_token = s.config_refresh_token) := by
  have hE := ensureAccessToken_200 envA.now tr s hneed h200
  constructor
  · intro hne
    have hne' : s.refresh_token ≠ tr.refresh_token := fun h => hne h.symm
    rw [if_pos hne'] at hE
    unfold makeRequestOnce
    rw [htok, hE]
    exact ⟨rfl, rfl, rfl⟩
  · intro heq
    have heq' : ¬ s.refresh_token ≠ tr.refresh_token := by simp [heq]
    rw [if_neg heq'] at hE
    unfold makeRequestOnce
    rw [htok, hE]
    exact ⟨rfl, rfl⟩

/-- C7 witness: a refresh returning `tok1` while `tok0` is stored rewrites
the config (and in-memory token) before the data request is issued. -/
theorem config_rewritten_before_data_request_witness :
    (makeRequestOnce envRot cState).2.1 =
      [Event.tokenPost, Event.configWrite (some "tok1"), Event.dataRequest] ∧
    (makeRequestOnce envRot cState).1.refresh_token = some "tok1" ∧
    (makeRequestOnce envRot cState).1.config_refresh_token = some "tok1" :=
  (config_rewritten_before_data_request envRot cState tokRotResp rfl rfl
    (by decide)).1 (by decide)

/-- C8 counterexample: with an empty-string bookmark — a bookmark value
that is "given" — `build_params` returns no `$filter` parameter, because
Python truthiness treats the empty string like `None`. -/
theorem build_params_empty_bookmark_counterexample :
    build_params "modifiedon" "modifiedon" (some "") =
      [("$orderby", "modifiedon asc")] := rfl

/-- C8 (amended): `build_params` always returns `$orderby` equal to the
replication key followed by " asc"; when a non-empty bookmark value is
given it additionally returns `$filter` equal to "key ge bookmark", and
when the bookmark is absent or the empty string no `$filter` is
present. -/
theorem build_params_orderby_and_filter (key : String) (fv : Option String) :
    (∀ v, fv = some v → v ≠ "" →
      build_params key key fv =
        [("$orderby", key ++ " asc"), ("$filter", key ++ " ge " ++ v)]) ∧
    ((fv = none ∨ fv = some "") →
      build_params key key fv = [("$orderby", key ++ " asc")]) := by
  constructor
  · rintro v rfl hv
    simp [build_params, hv]
  · rintro (rfl | rfl) <;> simp [build_params]

/-- C8 witness: with bookmark `2023-01-01T00:00:00Z` both parameters are
returned. -/
theorem build_params_orderby_and_filter_witness :
    build_params "modifiedon" "modifiedon" (some "2023-01-01T00:00:00Z") =
      [("$orderby", "modifiedon asc"),
       ("$filter", "modifiedon ge 2023-01-01T00:00:00Z")] :=
  (build_params_orderby_and_filter "modifiedon" (some "2023-01-01T00:00:00Z")).1
    "2023-01-01T00:00:00Z" rfl (by decide)

set_option maxRecDepth 16000 in
/-- C9 counterexample: the budget is measured by Python `len` (code
points), not bytes.  A single 901-character column name of two-byte
characters joins to 901 code points (within the 1800 cap) but 1802 UTF-8
bytes (over the cap), and `build_select_params` still returns the
`$select` parameter, contradicting the claim that the parameter set is
empty whenever the joined encoding exceeds the byte budget. -/
theorem build_select_params_byte_budget_counterexample :
    build_select_params (some [wideName]) = [("$select", wideName)] ∧
    MAX_SELECT_PARAM_SIZE < wideName.utf8ByteSize ∧
    wideName.length ≤ MAX_SELECT_PARAM_SIZE := by
  refine ⟨rfl, by decide, by decide⟩

/-- C9 (amended): for a non-empty column list, `build_select_params`
returns `$select` equal to the comma-joined names when the joined string
has at most `MAX_SELECT_PARAM_SIZE = 1800` characters (code points, Python
`len`), and returns an empty parameter set when the character count
exceeds the budget; an empty or missing list also yields the empty
parameter set. -/
theorem build_select_params_length_budget (cols : List String) :
    (cols ≠ [] → (String.intercalate "," cols).length ≤ MAX_SELECT_PARAM_SIZE →
      build_select_params (some cols) = [("$select", String.intercalate "," cols)]) ∧
    (MAX_SELECT_PARAM_SIZE < (String.intercalate "," cols).length →
      build_select_params (some cols) = []) ∧
    build_select_params none = [] ∧
    build_select_params (some []) = [] := by
  refine ⟨?_, ?_, rfl, rfl⟩
  · intro hne hle
    have h0 : ¬ cols.length = 0 := by simpa using hne
    simp only [build_select_params]
    rw [if_neg h0, if_neg (by omega)]
  · intro hgt
    have hne : cols ≠ [] := by
      rintro rfl
      exact absurd hgt (by decide)
    have h0 : ¬ cols.length = 0 := by simpa using hne
    simp only [build_select_params]
    rw [if_neg h0, if_pos (by omega)]

/-- C9 witness: a short column list is joined and selected. -/
theorem build_select_params_length_budget_witness :
    build_select_params (some ["name", "modifiedon"]) =
      [("$select", String.intercalate "," ["name", "modifiedon"])] :=
  (build_select_params_length_budget ["name", "modifiedon"]).1 (by decide) (by decide)

/-- C10: when the identity endpoint answers a refresh attempt with a
non-200 status, `_ensure_access_token` raises before assigning the access
token, the expiry, or the refresh token, and performs no config write: the
client state after the failed call equals the state before it. -/
theorem ensure_access_token_failure_atomicity (now : Int) (tr : TokenResponse)
    (s : ClientState)
    (hneed : needsRefresh s now = true) (hst : tr.status_code ≠ 200) :
    ensureAccessToken now (.ok tr) s =
      (s, [Event.tokenPost],
        Except.error (AttemptError.symon authInvalidMessage "dynamics.AuthInvalid")) :=
  ensureAccessToken_non200 now tr s hneed hst

/-- C10 witness: a 401 refresh reply leaves the concrete client state
untouched, with no config-write event. -/
theorem ensure_access_token_failure_atomicity_witness :
    ensureAccessToken 0 (.ok tokBadResp) cState =
      (cState, [Event.tokenPost],
        Except.error (AttemptError.symon authInvalidMessage "dynamics.AuthInvalid")) :=
  ensure_access_token_failure_atomicity 0 tokBadResp cState (by decide) (by decide)

end TapDynamics
